/-
  Verification of the crom-encantaria real-time battle server core.

  Shallow embedding of the simulation engine found under
  src/server/src/core (physics.ts, entity.ts, combat.ts, game-room.ts)
  and src/server/src/core/net/protocol.ts together with the dispatch in
  src/server/src/server/socket-manager.ts.

  Modelling conventions:
  * JavaScript `number` is embedded as `ℚ` (exact arithmetic; the spec's
    numeric properties are stated "up to floating-point rounding").
  * `Math.sqrt` is embedded as `ratSqrt`, which is exact on rationals whose
    numerator and denominator are perfect squares; every concrete input
    evaluated in this file falls in that class.
  * JavaScript property reads on objects lacking the property (`undefined`)
    are embedded as `Option` values that are constantly `none`, with the
    comparison semantics of `undefined` (every `<=` against it is false).
  * The `setInterval` timer of game-room.ts is embedded as a `tickArmed`
    flag: the tick callback can only run while the interval is armed, and
    `clearInterval` disarms it.
  * Messages handed to the `broadcastFn` callback are collected in an
    `outbox` list (newest last).
-/
import Mathlib

namespace Crom

/-! ## Geometry (physics.ts, vector utilities) -/

/-- Embedding of `Vector2D` from physics.ts. -/
structure Vector2D where
  x : ℚ
  y : ℚ
deriving Repr, DecidableEq

/-- Rational stand-in for `Math.sqrt`: exact whenever the (reduced)
numerator and denominator are perfect squares, which covers every concrete
input this file evaluates it on.  All call sites pass sums of squares, so
the argument is nonnegative and `natAbs` agrees with truncation. -/
def ratSqrt (q : ℚ) : ℚ :=
  (Nat.sqrt q.num.natAbs : ℚ) / (Nat.sqrt q.den : ℚ)

/-- Embedding of `getDistance` (physics.ts line 40). -/
def getDistance (a b : Vector2D) : ℚ :=
  let dx := b.x - a.x
  let dy := b.y - a.y
  ratSqrt (dx * dx + dy * dy)

/-- Embedding of `getDistanceSquared` (physics.ts line 52). -/
def getDistanceSquared (a b : Vector2D) : ℚ :=
  let dx := b.x - a.x
  let dy := b.y - a.y
  dx * dx + dy * dy

/-- Embedding of `getVector` (physics.ts line 64). -/
def getVector (a b : Vector2D) : Vector2D :=
  { x := b.x - a.x, y := b.y - a.y }

/-- Embedding of `magnitude` (physics.ts line 76). -/
def magnitude (v : Vector2D) : ℚ :=
  ratSqrt (v.x * v.x + v.y * v.y)

/-- Embedding of `normalize` (physics.ts line 86). -/
def normalize (v : Vector2D) : Vector2D :=
  let mag := magnitude v
  if mag = 0 then { x := 0, y := 0 }
  else { x := v.x / mag, y := v.y / mag }

/-! ## Entity and finite-state machine (entity.ts) -/

/-- Embedding of `EntityState` (entity.ts line 15). -/
inductive EntityState where
  | IDLE
  | MOVING
  | ATTACKING
  | COOLDOWN
  | DEAD
deriving Repr, DecidableEq

/-- Embedding of `EntityStats` (entity.ts line 31).  The interface declares
exactly these six fields; in particular it has no `aggroRange` field. -/
structure EntityStats where
  hp : ℚ
  maxHp : ℚ
  damage : ℚ
  attackSpeed : ℚ
  range : ℚ
  moveSpeed : ℚ
deriving Repr, DecidableEq

/-- In combat.ts line 68 the expression `entity.stats.aggroRange` reads a
property that `EntityStats` does not declare and that no code in the
repository ever assigns; at runtime the read yields `undefined`.  We embed
this permanently absent property as an `Option ℚ` that is always `none`. -/
def EntityStats.aggroRange (_ : EntityStats) : Option ℚ := none

/-- Embedding of the mutable `GameEntity` record (entity.ts line 67). -/
structure GameEntity where
  id : String
  ownerId : String
  unitId : String
  position : Vector2D
  radius : ℚ
  stats : EntityStats
  state : EntityState
  targetId : Option String
  targetPosition : Option Vector2D
  lastAttackTime : ℚ
  isMoving : Bool
  moveSpeed : ℚ
deriving Repr, DecidableEq

/-- In combat.ts lines 57/67/72 the expression `entity.isTower` reads a
property that `GameEntity` does not declare and that nothing in the
repository ever assigns; at runtime the read yields `undefined`, which is
falsy.  We embed it as the constant `false`. -/
def GameEntity.isTower (_ : GameEntity) : Bool := false

/-- Embedding of `EntityConfig` (entity.ts line 49). -/
structure EntityConfig where
  id : String
  ownerId : String
  unitId : String
  position : Vector2D
  stats : EntityStats
  radius : Option ℚ
deriving Repr, DecidableEq

/-- Embedding of the `GameEntity` constructor / `createEntity`
(entity.ts lines 93-107 and 312). -/
def createEntity (config : EntityConfig) : GameEntity :=
  { id := config.id
    ownerId := config.ownerId
    unitId := config.unitId
    position := config.position
    radius := config.radius.getD (1/2)
    stats := config.stats
    state := .IDLE
    targetId := none
    targetPosition := none
    lastAttackTime := 0
    isMoving := false
    moveSpeed := config.stats.moveSpeed }

/-- Embedding of `GameEntity.isAlive` (entity.ts line 132). -/
def GameEntity.isAlive (e : GameEntity) : Bool :=
  decide (e.state ≠ .DEAD) && decide (0 < e.stats.hp)

/-- Embedding of `GameEntity.takeDamage` (entity.ts line 114); the second
component is the `died` return value. -/
def GameEntity.takeDamage (e : GameEntity) (amount : ℚ) : GameEntity × Bool :=
  let hp := e.stats.hp - amount
  if hp ≤ 0 then
    ({ e with stats := { e.stats with hp := 0 }
              state := .DEAD
              isMoving := false
              targetId := none
              targetPosition := none }, true)
  else
    ({ e with stats := { e.stats with hp := hp } }, false)

/-- Embedding of `GameEntity.canAttack` (entity.ts line 140). -/
def GameEntity.canAttack (e : GameEntity) (currentTime : ℚ) : Bool :=
  e.isAlive && decide (currentTime - e.lastAttackTime ≥ 1 / e.stats.attackSpeed * 1000)

/-- Embedding of `GameEntity.setTarget` (entity.ts line 151). -/
def GameEntity.setTarget (e : GameEntity) (target : Option GameEntity) : GameEntity :=
  match target with
  | some t =>
      { e with targetId := some t.id
               targetPosition := some t.position
               state := .MOVING
               isMoving := true }
  | none =>
      { e with targetId := none
               targetPosition := none
               state := .IDLE
               isMoving := false }

/-- Embedding of `GameEntity.updateTargetPosition` (entity.ts line 169). -/
def GameEntity.updateTargetPosition (e : GameEntity) (target : GameEntity) : GameEntity :=
  if e.targetId = some target.id then
    { e with targetPosition := some target.position }
  else e

/-- Embedding of `GameEntity.isInRange` (entity.ts line 179). -/
def GameEntity.isInRange (e target : GameEntity) : Bool :=
  decide (getDistance e.position target.position - e.radius - target.radius ≤ e.stats.range)

/-- Embedding of `GameEntity.recordAttack` (entity.ts line 261). -/
def GameEntity.recordAttack (e : GameEntity) (tickTime : ℚ) : GameEntity :=
  { e with lastAttackTime := tickTime, state := .COOLDOWN }

/-- Embedding of `GameEntity.updateState` (entity.ts lines 193-255),
the finite-state machine.  Logging is ignored. -/
def GameEntity.updateState (e : GameEntity) (target : Option GameEntity)
    (tickTime : ℚ) : GameEntity :=
  if ¬ e.isAlive then e
  else
    match target with
    | none =>
        if e.state ≠ .IDLE then
          { e with state := .IDLE, isMoving := false
                   targetId := none, targetPosition := none }
        else e
    | some t =>
        if ¬ t.isAlive then
          if e.state ≠ .IDLE then
            { e with state := .IDLE, isMoving := false
                     targetId := none, targetPosition := none }
          else e
        else
          let e := e.updateTargetPosition t
          let inRange := e.isInRange t
          let can := e.canAttack tickTime
          match e.state with
          | .IDLE | .MOVING =>
              if inRange then { e with state := .ATTACKING, isMoving := false }
              else { e with state := .MOVING, isMoving := true }
          | .ATTACKING =>
              if ¬ inRange then { e with state := .MOVING, isMoving := true }
              else if ¬ can then { e with state := .COOLDOWN, isMoving := false }
              else e
          | .COOLDOWN =>
              if ¬ inRange then { e with state := .MOVING, isMoving := true }
              else if can then { e with state := .ATTACKING, isMoving := false }
              else e
          | .DEAD => e

/-- Embedding of `EntitySnapshot` (entity.ts line 297). -/
structure EntitySnapshot where
  id : String
  ownerId : String
  unitId : String
  position : Vector2D
  hp : ℚ
  maxHp : ℚ
  state : EntityState
  targetId : Option String
deriving Repr, DecidableEq

/-- Embedding of `GameEntity.toSnapshot` (entity.ts line 280). -/
def GameEntity.toSnapshot (e : GameEntity) : EntitySnapshot :=
  { id := e.id, ownerId := e.ownerId, unitId := e.unitId
    position := e.position, hp := e.stats.hp, maxHp := e.stats.maxHp
    state := e.state, targetId := e.targetId }

/-! ## Physics system (physics.ts, `PhysicsSystem`) -/

/-- Embedding of the `bounds` record of `PhysicsConfig` (physics.ts line 158). -/
structure MapBounds where
  minX : ℚ
  maxX : ℚ
  minY : ℚ
  maxY : ℚ
deriving Repr, DecidableEq

/-- Embedding of `PhysicsConfig` (physics.ts line 152). -/
structure PhysicsConfig where
  separationForce : ℚ
  collisionIterations : Nat
  bounds : MapBounds
deriving Repr, DecidableEq

/-- Embedding of `DEFAULT_PHYSICS_CONFIG` (physics.ts line 166). -/
def defaultPhysicsConfig : PhysicsConfig :=
  { separationForce := 2
    collisionIterations := 3
    bounds := { minX := 0, maxX := 30, minY := 0, maxY := 40 } }

/-- Embedding of `PhysicsSystem.moveTowards` (physics.ts lines 222-245).
The source is generic over `PhysicsEntity`; we instantiate it at
`GameEntity`, the only type the repository ever passes. -/
def moveTowards (e : GameEntity) (target : Vector2D) (deltaTime : ℚ) : GameEntity :=
  let direction := getVector e.position target
  let distance := magnitude direction
  if distance < 1/10 then { e with isMoving := false }
  else
    let normalizedDir := normalize direction
    let moveDistance := e.moveSpeed * deltaTime
    let actualMove := min moveDistance distance
    { e with position := { x := e.position.x + normalizedDir.x * actualMove
                           y := e.position.y + normalizedDir.y * actualMove } }

/-- One iteration of the inner body of `PhysicsSystem.resolveCollisions`
(physics.ts lines 259-290) on the pair of indices `ij`, updating the
entity collection in place like the source's sequential mutation. -/
def resolvePairStep (cfg : PhysicsConfig) (deltaTime : ℚ)
    (arr : List GameEntity) (ij : Nat × Nat) : List GameEntity :=
  match arr.get? ij.1, arr.get? ij.2 with
  | some a, some b =>
      let dx := b.position.x - a.position.x
      let dy := b.position.y - a.position.y
      let distSq := dx * dx + dy * dy
      let minDist := a.radius + b.radius
      let minDistSq := minDist * minDist
      if distSq < minDistSq ∧ distSq > 1/10000 then
        let dist := ratSqrt distSq
        let overlap := minDist - dist
        let nx := dx / dist
        let ny := dy / dist
        let pushForce := overlap * cfg.separationForce * deltaTime
        let halfPush := pushForce * (1/2)
        let a' := { a with position := { x := a.position.x - nx * halfPush
                                         y := a.position.y - ny * halfPush } }
        let b' := { b with position := { x := b.position.x + nx * halfPush
                                         y := b.position.y + ny * halfPush } }
        (arr.set ij.1 a').set ij.2 b'
      else arr
  | _, _ => arr

/-- All index pairs `(i, j)` with `i < j < n`, in the enumeration order of
the nested loops of `resolveCollisions` (physics.ts lines 259-260). -/
def pairIndices (n : Nat) : List (Nat × Nat) :=
  (List.range n).flatMap fun i =>
    (List.range (n - i - 1)).map fun k => (i, i + 1 + k)

/-- Embedding of `PhysicsSystem.resolveCollisions` (physics.ts
lines 253-292): one full pass over all ordered pairs. -/
def resolveCollisions (cfg : PhysicsConfig) (entities : List GameEntity)
    (deltaTime : ℚ) : List GameEntity :=
  (pairIndices entities.length).foldl (resolvePairStep cfg deltaTime) entities

/-- Embedding of `PhysicsSystem.clampToBounds` (physics.ts lines 298-304). -/
def clampToBounds (cfg : PhysicsConfig) (e : GameEntity) : GameEntity :=
  let r := e.radius
  { e with position :=
      { x := max (cfg.bounds.minX + r) (min (cfg.bounds.maxX - r) e.position.x)
        y := max (cfg.bounds.minY + r) (min (cfg.bounds.maxY - r) e.position.y) } }

/-- Embedding of `PhysicsSystem.update` (physics.ts lines 197-214):
movement phase, `collisionIterations` collision passes, bounds clamp. -/
def physicsUpdate (cfg : PhysicsConfig) (entities : List GameEntity)
    (deltaTime : ℚ) : List GameEntity :=
  let moved := entities.map fun e =>
    if e.isMoving then
      match e.targetPosition with
      | some tp => moveTowards e tp deltaTime
      | none => e
    else e
  let resolved := (fun l => resolveCollisions cfg l deltaTime)^[cfg.collisionIterations] moved
  resolved.map (clampToBounds cfg)

/-! ## Combat system (combat.ts, `CombatSystem`) -/

/-- Embedding of `CombatSystem.findNearestWithinRange` (combat.ts
lines 100-120).  The `range` argument is an `Option` because the call site
passes `entity.stats.aggroRange`, an absent property: a JavaScript
comparison `dist <= undefined` is false, so with `none` no enemy is ever
selected and `minDistance` stays `undefined` until the first match. -/
def findNearestWithinRange (entity : GameEntity) (enemies : List GameEntity)
    (range : Option ℚ) : Option GameEntity :=
  (enemies.foldl
    (fun acc enemy =>
      let dist := getDistance entity.position enemy.position
      match acc.2 with
      | some m => if dist ≤ m then (some enemy, some dist) else acc
      | none => acc)
    ((none : Option GameEntity), range)).1

/-- Embedding of `CombatSystem.findNearestEnemy` (combat.ts lines 129-149);
`none` as accumulated distance stands for the initial `Infinity`. -/
def findNearestEnemy (entity : GameEntity) (enemies : List GameEntity) :
    Option GameEntity :=
  (enemies.foldl
    (fun acc enemy =>
      if ¬ enemy.isAlive then acc
      else
        let dist := getDistance entity.position enemy.position
        match acc.2 with
        | none => (some enemy, some dist)
        | some m => if dist < m then (some enemy, some dist) else acc)
    ((none : Option GameEntity), (none : Option ℚ))).1

/-- Embedding of `CombatSystem.processAttack` (combat.ts lines 158-183):
returns the updated attacker and target. -/
def processAttack (attacker target : GameEntity) (tickTime : ℚ) :
    GameEntity × GameEntity :=
  let damage := attacker.stats.damage
  let (target', died) := target.takeDamage damage
  let attacker' := attacker.recordAttack tickTime
  let attacker' := if died then attacker'.setTarget none else attacker'
  (attacker', target')

/-- Writes back a mutated entity through its id, mirroring the fact that
the source mutates one shared object referenced from the collection. -/
def setById (arr : List GameEntity) (tid : String) (t' : GameEntity) :
    List GameEntity :=
  match arr.findIdx? (fun x => x.id = tid) with
  | some j => arr.set j t'
  | none => arr

/-- The loop body of `CombatSystem.update` (combat.ts lines 56-94) for the
entity at index `i`.  `p1Ids`/`p2Ids` are the ids captured by the filters
run once at the top of `update`; target lookups read the current values of
those entities, as the source's shared references do. -/
def combatStep (p1Ids p2Ids : List String) (tickTime : ℚ)
    (arr : List GameEntity) (i : Nat) : List GameEntity :=
  match arr.get? i with
  | none => arr
  | some e =>
      if ¬ e.isAlive ∨ e.isTower then arr
      else
        let enemyIds := if e.ownerId = "player1" then p2Ids else p1Ids
        let enemies := arr.filter fun x => enemyIds.contains x.id
        let enemyUnits := enemies.filter fun x => ¬ x.isTower
        let target0 := findNearestWithinRange e enemyUnits e.stats.aggroRange
        let target :=
          match target0 with
          | some t => some t
          | none => findNearestEnemy e (enemies.filter fun x => x.isTower)
        match target with
        | none => arr.set i (e.updateState none tickTime)
        | some t =>
            let e' := e.updateState (some t) tickTime
            if e'.state = .ATTACKING ∧ e'.canAttack tickTime then
              let (e'', t') := processAttack e' t tickTime
              setById (arr.set i e'') t.id t'
            else arr.set i e'

/-- Embedding of `CombatSystem.update` (combat.ts lines 46-95). -/
def combatUpdate (entities : List GameEntity) (tickTime : ℚ) :
    List GameEntity :=
  let player1Ids :=
    (entities.filter fun e => e.ownerId = "player1" ∧ e.isAlive).map (·.id)
  let player2Ids :=
    (entities.filter fun e => e.ownerId = "player2" ∧ e.isAlive).map (·.id)
  (List.range entities.length).foldl (combatStep player1Ids player2Ids tickTime) entities

/-! ## Static catalog (data/loader.ts) -/

/-- Embedding of `UnitBaseStats` (core/types/unit.ts, consumed by
`calculateFinalStats`). -/
structure UnitBaseStats where
  health : ℚ
  damage : ℚ
  attackSpeed : ℚ
  range : ℚ
  moveSpeed : ℚ
deriving Repr, DecidableEq

/-- Catalog unit entry as consumed by game-room.ts. -/
structure UnitBase where
  unitId : String
  baseStats : UnitBaseStats
  manaCost : ℚ
deriving Repr, DecidableEq

/-- Embedding of `ItemStatsModifier` (core/types/item.ts): every field is
optional, read with `?? 0`. -/
structure ItemStatsModifier where
  health : Option ℚ
  damage : Option ℚ
  attackSpeed : Option ℚ
  range : Option ℚ
  moveSpeed : Option ℚ
deriving Repr, DecidableEq

/-- Catalog item entry as consumed by game-room.ts. -/
structure Item where
  itemId : String
  manaWeight : ℚ
  statsModifier : ItemStatsModifier
deriving Repr, DecidableEq

/-- Modelled from the spec: the unit catalog itself (src/data/units.json,
read by data/loader.ts, later the `@crom/shared` package) is not present in
the repository.  `knight_base` carries the exact stats documented in the
repository's data-schema document (docs "03. Data Schema", section 1:
health 200, damage 25, attack speed 1.0, range 1.5, move speed 2.0, mana
cost 3).  `archer_base` and `mage_base` are the other two ids named by
`handleSpawnRequest`; their stats are representative (the test script notes
archer cost 3, mage cost 4) and no theorem below depends on them. -/
def unitsCatalog : List UnitBase :=
  [ { unitId := "knight_base"
      baseStats := { health := 200, damage := 25, attackSpeed := 1
                     range := 3/2, moveSpeed := 2 }
      manaCost := 3 }
  , { unitId := "archer_base"
      baseStats := { health := 120, damage := 18, attackSpeed := 6/5
                     range := 6, moveSpeed := 2 }
      manaCost := 3 }
  , { unitId := "mage_base"
      baseStats := { health := 100, damage := 40, attackSpeed := 4/5
                     range := 5, moveSpeed := 3/2 }
      manaCost := 4 } ]

/-- Embedding of `getUnitById` (data/loader.ts). -/
def getUnitById (unitId : String) : Option UnitBase :=
  unitsCatalog.find? fun u => u.unitId = unitId

/-- Modelled from the spec: the item catalog (src/data/items.json) is not
present in the repository; `sword_flame_t1` carries the modifiers of the
data-schema document (docs "03. Data Schema", section 2). -/
def itemsCatalog : List Item :=
  [ { itemId := "sword_flame_t1"
      manaWeight := 1
      statsModifier := { health := none, damage := some 50
                         attackSpeed := some (-(1/10))
                         range := none, moveSpeed := none } } ]

/-- Embedding of `getItemById` (data/loader.ts). -/
def getItemById (itemId : String) : Option Item :=
  itemsCatalog.find? fun i => i.itemId = itemId

/-! ## Match session (game-room.ts, `GameRoom`) -/

/-- Embedding of `TowerState` (game-room.ts line 31). -/
structure TowerState where
  id : String
  ownerId : String
  position : Vector2D
  health : ℚ
  maxHealth : ℚ
deriving Repr, DecidableEq

/-- Embedding of `PlayerConnection` (game-room.ts line 54). -/
structure PlayerConnection where
  playerId : String
  deckId : String
deriving Repr, DecidableEq

/-- The player slot type `1 | 2` of game-room.ts. -/
inductive PlayerSlot where
  | p1
  | p2
deriving Repr, DecidableEq

/-- Embedding of the numeric part of `GameRoomConfig` / `DEFAULT_CONFIG`
(game-room.ts lines 72-95); the callbacks are modelled by the outbox. -/
structure RoomConfig where
  tickRate : ℚ
  maxDuration : ℚ
  initialMana : ℚ
  manaRegenRate : ℚ
deriving Repr, DecidableEq

/-- Embedding of `DEFAULT_CONFIG` (game-room.ts line 89). -/
def defaultRoomConfig : RoomConfig :=
  { tickRate := 20, maxDuration := 180, initialMana := 5, manaRegenRate := 1 }

/-- Embedding of `EntityDelta` (protocol.ts line 210). -/
structure EntityDelta where
  id : String
  x : ℚ
  y : ℚ
  hp : ℚ
  s : Nat
deriving Repr, DecidableEq

/-- Embedding of `TowerDelta` (protocol.ts line 226). -/
structure TowerDelta where
  id : String
  hp : ℚ
deriving Repr, DecidableEq

/-- Embedding of `stateToCode` (protocol.ts line 81). -/
def stateToCode : EntityState → Nat
  | .IDLE => 0
  | .MOVING => 1
  | .ATTACKING => 2
  | .COOLDOWN => 3
  | .DEAD => 4

/-- JavaScript `Math.round`, which is `floor (x + 1/2)`. -/
def jsRound (q : ℚ) : ℚ := (⌊q + 1/2⌋ : ℤ)

/-- The outbound messages of protocol.ts that the room emits through its
`broadcastFn` callback (S2CMessage union, restricted to the variants
game-room.ts constructs, plus the MATCH_END broadcast the wired `onGameEnd`
callback performs in socket-manager.ts). -/
inductive S2CMsg where
  | entitySpawned (id ownerId unitId : String) (maxHp : ℚ) (position : Vector2D)
  | gameTick (tick : Nat) (mana1 mana2 : ℚ)
      (entities : List EntityDelta) (towers : List TowerDelta)
  | matchEnd (winnerId reason : String)
  | errorMsg (code message : String)
deriving Repr, DecidableEq

/-- Recognizer for `ERROR` messages. -/
def S2CMsg.isError : S2CMsg → Bool
  | .errorMsg _ _ => true
  | _ => false

/-- Embedding of `GameState` (game-room.ts line 42). -/
structure GameState where
  tick : Nat
  mana1 : ℚ
  mana2 : ℚ
  entitiesSnap : List EntitySnapshot
  towers : List TowerState
  startTime : ℚ
  isRunning : Bool
deriving Repr, DecidableEq

/-- The full mutable state of a `GameRoom` object.  `tickArmed` models
whether `tickInterval` currently holds a live `setInterval` handle; the
tick callback can only run while it does.  `outbox` collects every message
handed to `broadcastFn`, newest last. -/
structure RoomState where
  roomId : String
  player1 : Option PlayerConnection
  player2 : Option PlayerConnection
  gameState : GameState
  config : RoomConfig
  entities : List GameEntity
  entityCounter : Nat
  tickArmed : Bool
  outbox : List S2CMsg
deriving Repr, DecidableEq

/-- Embedding of `GameRoom.createInitialTowers` (game-room.ts
lines 168-182). -/
def createInitialTowers : List TowerState :=
  [ { id := "t1_left",  ownerId := "player1", position := { x := 5,  y := 5 },  health := 2500, maxHealth := 2500 }
  , { id := "t1_right", ownerId := "player1", position := { x := 25, y := 5 },  health := 2500, maxHealth := 2500 }
  , { id := "t1_core",  ownerId := "player1", position := { x := 15, y := 2 },  health := 4000, maxHealth := 4000 }
  , { id := "t2_left",  ownerId := "player2", position := { x := 5,  y := 35 }, health := 2500, maxHealth := 2500 }
  , { id := "t2_right", ownerId := "player2", position := { x := 25, y := 35 }, health := 2500, maxHealth := 2500 }
  , { id := "t2_core",  ownerId := "player2", position := { x := 15, y := 38 }, health := 4000, maxHealth := 4000 } ]

/-- Embedding of `GameRoom.createInitialState` (game-room.ts
lines 151-163). -/
def createInitialState (config : RoomConfig) : GameState :=
  { tick := 0
    mana1 := config.initialMana
    mana2 := config.initialMana
    entitiesSnap := []
    towers := createInitialTowers
    startTime := 0
    isRunning := false }

/-- Embedding of the `GameRoom` constructor (game-room.ts lines 126-146). -/
def createRoom (roomId : String) (config : RoomConfig) : RoomState :=
  { roomId := roomId
    player1 := none
    player2 := none
    gameState := createInitialState config
    config := config
    entities := []
    entityCounter := 0
    tickArmed := false
    outbox := [] }

/-- Embedding of `GameRoom.addPlayer` (game-room.ts lines 187-199). -/
def addPlayer (room : RoomState) (player : PlayerConnection)
    (slot : PlayerSlot) : Bool × RoomState :=
  match slot, room.player1, room.player2 with
  | .p1, none, _ => (true, { room with player1 := some player })
  | .p2, _, none => (true, { room with player2 := some player })
  | _, _, _ => (false, room)

/-- Embedding of `GameRoom.isReady` (game-room.ts line 204). -/
def isReady (room : RoomState) : Bool :=
  room.player1.isSome && room.player2.isSome

/-- Embedding of `GameRoom.start` (game-room.ts lines 211-226): arming
`tickArmed` models installing the interval timer. -/
def startRoom (room : RoomState) (now : ℚ) : RoomState :=
  if room.gameState.isRunning then room
  else
    { room with
        gameState := { room.gameState with isRunning := true, startTime := now }
        tickArmed := true }

/-- Embedding of `GameRoom.stop` (game-room.ts lines 231-252): disarming
`tickArmed` models `clearInterval`. -/
def stopRoom (room : RoomState) (_reason : String) : RoomState :=
  if ¬ room.gameState.isRunning then room
  else
    { room with
        gameState := { room.gameState with isRunning := false }
        tickArmed := false }

/-- Embedding of `GameRoom.calculateFinalStats` (game-room.ts
lines 341-374). -/
def calculateFinalStats (baseStats : UnitBaseStats)
    (equippedItems : List String) : EntityStats :=
  let s := equippedItems.foldl
    (fun (s : UnitBaseStats) itemId =>
      match getItemById itemId with
      | none => s
      | some item =>
          { health := s.health + item.statsModifier.health.getD 0
            damage := s.damage + item.statsModifier.damage.getD 0
            attackSpeed := s.attackSpeed + item.statsModifier.attackSpeed.getD 0
            range := s.range + item.statsModifier.range.getD 0
            moveSpeed := s.moveSpeed + item.statsModifier.moveSpeed.getD 0 })
    baseStats
  { hp := max 1 s.health
    maxHp := max 1 s.health
    damage := max 1 s.damage
    attackSpeed := max (1/10) s.attackSpeed
    range := max (1/2) s.range
    moveSpeed := max (1/2) s.moveSpeed }

/-- Embedding of `GameRoom.spawnUnit` (game-room.ts lines 269-313),
including the `ENTITY_SPAWNED` broadcast of `broadcastEntitySpawned`. -/
def spawnUnit (room : RoomState) (playerIndex : PlayerSlot) (unitId : String)
    (x y : ℚ) (equippedItems : List String) :
    Option GameEntity × RoomState :=
  match getUnitById unitId with
  | none => (none, room)
  | some unit =>
      let finalStats := calculateFinalStats unit.baseStats equippedItems
      let counter := room.entityCounter + 1
      let entityId := unitId ++ "_" ++ toString counter
      let entity := createEntity
        { id := entityId
          ownerId := match playerIndex with | .p1 => "player1" | .p2 => "player2"
          unitId := unitId
          position := { x := x, y := y }
          stats := finalStats
          radius := some (1/2) }
      let room :=
        { room with
            entityCounter := counter
            entities := room.entities ++ [entity]
            outbox := room.outbox ++
              [.entitySpawned entityId entity.ownerId unitId entity.stats.maxHp entity.position] }
      (some entity, room)

/-- Embedding of `GameRoom.updateMana` (game-room.ts lines 481-493). -/
def updateMana (config : RoomConfig) (gs : GameState) : GameState :=
  let manaPerTick := config.manaRegenRate / config.tickRate
  let maxMana : ℚ := 10
  { gs with
      mana1 := min maxMana (gs.mana1 + manaPerTick)
      mana2 := min maxMana (gs.mana2 + manaPerTick) }

/-- Embedding of `GameRoom.determineWinnerByTowers` (game-room.ts
lines 540-548). -/
def determineWinnerByTowers (room : RoomState) : String :=
  let p1Towers := room.gameState.towers.filter fun t => t.ownerId = "player1"
  let p2Towers := room.gameState.towers.filter fun t => t.ownerId = "player2"
  let p1TotalHp : ℚ := (p1Towers.map (·.health)).sum
  let p2TotalHp : ℚ := (p2Towers.map (·.health)).sum
  if p1TotalHp ≥ p2TotalHp then "player1" else "player2"

/-- Embedding of `GameRoom.endGame` (game-room.ts lines 553-558): `stop`
followed by the `onGameEnd` callback, whose wiring in
socket-manager.ts (`handleGameEnd`) broadcasts a `MATCH_END` message. -/
def endGame (room : RoomState) (winnerId reason : String) : RoomState :=
  let room := stopRoom room reason
  { room with outbox := room.outbox ++ [.matchEnd winnerId reason] }

/-- Embedding of `GameRoom.checkWinCondition` (game-room.ts
lines 511-535). -/
def checkWinCondition (room : RoomState) (now : ℚ) : RoomState :=
  let elapsed := now - room.gameState.startTime
  let maxDurationMs := room.config.maxDuration * 1000
  if elapsed ≥ maxDurationMs then
    endGame room (determineWinnerByTowers room) "Tempo limite atingido"
  else
    let p1Core := room.gameState.towers.find? fun t => t.id = "t1_core"
    let p2Core := room.gameState.towers.find? fun t => t.id = "t2_core"
    match p1Core with
    | some c =>
        if c.health ≤ 0 then endGame room "player2" "Core do Player 1 destruido"
        else
          match p2Core with
          | some c2 =>
              if c2.health ≤ 0 then endGame room "player1" "Core do Player 2 destruido"
              else room
          | none => room
    | none =>
        match p2Core with
        | some c2 =>
            if c2.health ≤ 0 then endGame room "player1" "Core do Player 2 destruido"
            else room
        | none => room

/-- Embedding of `GameRoom.broadcastGameTick` (game-room.ts
lines 446-476). -/
def broadcastGameTick (room : RoomState) : RoomState :=
  let entities : List EntityDelta := room.entities.map fun e =>
    { id := e.id
      x := jsRound (e.position.x * 100) / 100
      y := jsRound (e.position.y * 100) / 100
      hp := e.stats.hp
      s := stateToCode e.state }
  let towers : List TowerDelta := room.gameState.towers.map fun t =>
    { id := t.id, hp := t.health }
  { room with outbox := room.outbox ++
      [.gameTick room.gameState.tick
        (jsRound (room.gameState.mana1 * 10) / 10)
        (jsRound (room.gameState.mana2 * 10) / 10)
        entities towers] }

/-- Embedding of `GameRoom.tick` (game-room.ts lines 384-441).  `now`
stands for the `Date.now()` reads during the tick. -/
def tickRoom (room : RoomState) (now : ℚ) : RoomState :=
  let gs := { room.gameState with tick := room.gameState.tick + 1 }
  let tickTime := now
  let deltaTime := 1000 / room.config.tickRate / 1000
  let gs := updateMana room.config gs
  let entities := combatUpdate room.entities tickTime
  let entities := physicsUpdate defaultPhysicsConfig entities deltaTime
  let entities := entities.filter (·.isAlive)
  let room := { room with gameState := gs, entities := entities }
  let room := checkWinCondition room now
  let room := { room with gameState :=
    { room.gameState with entitiesSnap := room.entities.map (·.toSnapshot) } }
  broadcastGameTick room

/-- One firing of the interval timer: the tick callback runs only while
the interval installed by `start` has not been cleared. -/
def timerFire (room : RoomState) (now : ℚ) : RoomState :=
  if room.tickArmed then tickRoom room now else room

/-- Embedding of `GameRoom.handleSpawnRequest` (game-room.ts
lines 621-637).  The function body performs none of the validations its
TODO comments list: it derives a unit id from `cardIndex % 3` over the
hard-coded test unit list and spawns unconditionally.  A negative
`cardIndex` makes `testUnits[cardIndex % 3]` read `undefined`
(JavaScript remainder keeps the dividend's sign), so the catalog lookup
fails and `spawnUnit` returns `null` without mutating anything. -/
def handleSpawnRequest (room : RoomState) (playerIndex : PlayerSlot)
    (cardIndex : ℤ) (x y : ℚ) : Bool × RoomState :=
  let testUnits := ["knight_base", "archer_base", "mage_base"]
  let r := cardIndex.tmod 3
  match (if r < 0 then none else testUnits.get? r.toNat) with
  | none => (false, room)
  | some unitId =>
      let (entity, room') := spawnUnit room playerIndex unitId x y []
      (entity.isSome, room')

/-! ## Reachable room states -/

/-- The public operations a `GameRoom` can be driven through (spawn
commands arrive between ticks via direct calls; timer firings carry the
wall-clock timestamp they run at). -/
inductive RoomOp where
  | addPlayer (player : PlayerConnection) (slot : PlayerSlot)
  | start (now : ℚ)
  | timer (now : ℚ)
  | spawn (slot : PlayerSlot) (unitId : String) (x y : ℚ) (items : List String)
  | handleSpawn (slot : PlayerSlot) (cardIndex : ℤ) (x y : ℚ)
  | stop (reason : String)

/-- Applies one public operation, discarding result values. -/
def applyOp (room : RoomState) : RoomOp → RoomState
  | .addPlayer player slot => (addPlayer room player slot).2
  | .start now => startRoom room now
  | .timer now => timerFire room now
  | .spawn slot unitId x y items => (spawnUnit room slot unitId x y items).2
  | .handleSpawn slot cardIndex x y => (handleSpawnRequest room slot cardIndex x y).2
  | .stop reason => stopRoom room reason

/-- The state after driving a freshly constructed room through a sequence
of public operations. -/
def runOps (config : RoomConfig) (ops : List RoomOp) : RoomState :=
  ops.foldl applyOp (createRoom "room" config)

/-- The guard of the core-destruction branch of `checkWinCondition`
(game-room.ts lines 523-534): true iff either core tower's health is at
or below zero. -/
def coreDestructionGuard (room : RoomState) : Bool :=
  let p1Core := room.gameState.towers.find? fun t => t.id = "t1_core"
  let p2Core := room.gameState.towers.find? fun t => t.id = "t2_core"
  (match p1Core with | some c => decide (c.health ≤ 0) | none => false) ||
  (match p2Core with | some c => decide (c.health ≤ 0) | none => false)

/-! ## Protocol codec (protocol.ts, socket-manager.ts) -/

/-- A parsed inbound JSON object, with each field present or absent; this
is the shape `JSON.parse` hands to `parseC2SMessage`. -/
structure RawC2S where
  type : Option String
  cardIndex : Option ℚ
  x : Option ℚ
  y : Option ℚ
  deckId : Option String
deriving Repr, DecidableEq

/-- The values of the `C2SMessageType` enum (protocol.ts lines 22-29). -/
def c2sTypeValues : List String := ["QUEUE_JOIN", "QUEUE_LEAVE", "SPAWN_CARD"]

/-- Embedding of `parseC2SMessage` (protocol.ts lines 303-315): it checks
that `type` is present and one of the enum values, then returns the parsed
object unchanged — no other field is inspected. -/
def parseC2SMessage (raw : RawC2S) : Except String RawC2S :=
  match raw.type with
  | none => .error "Invalid message format: missing type"
  | some t =>
      if c2sTypeValues.contains t then .ok raw
      else .error ("Unknown message type: " ++ t)

/-- The observable outcome of `SocketManager.handleMessage` for a known
client: either the message is routed to a handler (and for `SPAWN_CARD`
into `GameRoom.handleSpawnRequest`) or an `ERROR` reply is sent. -/
inductive HandleOutcome where
  | routedQueueJoin (deckId : Option String)
  | routedQueueLeave
  | routedSpawnCard (cardIndex x y : Option ℚ)
  | errorReply (code : String)
deriving Repr, DecidableEq

/-- Embedding of `SocketManager.handleMessage` (socket-manager.ts
lines 234-271) for a connected client: a `parseC2SMessage` throw is caught
and answered with a `PARSE_ERROR` reply; a successfully parsed message is
dispatched on its type.  (The `switch` also names `C2SMessageType.LOGIN`,
which this protocol enum does not define; that case can never match a
parsed message, and the `default` arm is unreachable because the parser
admits exactly the three enum values.) -/
def handleMessage (raw : RawC2S) : HandleOutcome :=
  match parseC2SMessage raw with
  | .error _ => .errorReply "PARSE_ERROR"
  | .ok m =>
      match m.type with
      | some "QUEUE_JOIN" => .routedQueueJoin m.deckId
      | some "QUEUE_LEAVE" => .routedQueueLeave
      | some "SPAWN_CARD" => .routedSpawnCard m.cardIndex m.x m.y
      | _ => .errorReply "UNKNOWN_TYPE"

/-- Modelled from the spec: the deploy zones (section 6 of the spec:
y in [0,15] for player 1, y in [25,40] for player 2).  No code under
src implements them; this is the position check `handleSpawnRequest`'s
TODO comment promises. -/
def inDeployZone (slot : PlayerSlot) (y : ℚ) : Bool :=
  match slot with
  | .p1 => decide (0 ≤ y ∧ y ≤ 15)
  | .p2 => decide (25 ≤ y ∧ y ≤ 40)

/-! ## Concrete fixtures used by the theorems below -/

/-- A first player binding. -/
def testP1 : PlayerConnection := { playerId := "alice", deckId := "deck-a" }

/-- A second player binding. -/
def testP2 : PlayerConnection := { playerId := "bob", deckId := "deck-b" }

/-- A room with both players added and the match started at time 0. -/
def readyRoom : RoomState :=
  startRoom (addPlayer (addPlayer (createRoom "room" defaultRoomConfig) testP1 .p1).2 testP2 .p2).2 0

/-- The room after spawning a player-1 archer at (10,15) and a player-2
knight at (10,25) — the aggro scenario of the spec and of the repository's
own test script (test-simulation.ts, test case 5). -/
def aggroRoom : RoomState :=
  (spawnUnit (spawnUnit readyRoom .p1 "archer_base" 10 15 []).2 .p2 "knight_base" 10 25 []).2

/-- The player-1 archer `spawnUnit` places into `aggroRoom` (unit id
`archer_base`, spawn counter 1). -/
def archerE : GameEntity :=
  { id := "archer_base_1", ownerId := "player1", unitId := "archer_base"
    position := { x := 10, y := 15 }, radius := 1/2
    stats := { hp := 120, maxHp := 120, damage := 18, attackSpeed := 6/5
               range := 6, moveSpeed := 2 }
    state := .IDLE, targetId := none, targetPosition := none
    lastAttackTime := 0, isMoving := false, moveSpeed := 2 }

/-- The player-2 knight `spawnUnit` places into `aggroRoom` (unit id
`knight_base`, spawn counter 2). -/
def knightE : GameEntity :=
  { id := "knight_base_2", ownerId := "player2", unitId := "knight_base"
    position := { x := 10, y := 25 }, radius := 1/2
    stats := { hp := 200, maxHp := 200, damage := 25, attackSpeed := 1
               range := 3/2, moveSpeed := 2 }
    state := .IDLE, targetId := none, targetPosition := none
    lastAttackTime := 0, isMoving := false, moveSpeed := 2 }

/-- Generic stats for standalone physics bodies. -/
def dummyStats : EntityStats :=
  { hp := 100, maxHp := 100, damage := 10, attackSpeed := 1, range := 3/2, moveSpeed := 2 }

/-- A radius-0.5 body at (10, 10). -/
def bodyA : GameEntity :=
  createEntity { id := "a", ownerId := "player1", unitId := "u"
                 position := { x := 10, y := 10 }, stats := dummyStats
                 radius := some (1/2) }

/-- A radius-0.5 body at (10.6, 10): centers 0.6 apart from `bodyA`. -/
def bodyB : GameEntity :=
  createEntity { id := "b", ownerId := "player2", unitId := "u"
                 position := { x := 53/5, y := 10 }, stats := dummyStats
                 radius := some (1/2) }

/-- A radius-0.5 body exactly on top of `bodyA`. -/
def bodyC : GameEntity :=
  createEntity { id := "c", ownerId := "player2", unitId := "u"
                 position := { x := 10, y := 10 }, stats := dummyStats
                 radius := some (1/2) }

/-- A living unit in state MOVING whose attack fired at t = 500 ms
(cooldown 1000 ms at attack speed 1). -/
def cooldownUnit : GameEntity :=
  { id := "u1", ownerId := "player1", unitId := "knight_base"
    position := { x := 0, y := 0 }, radius := 1/2, stats := dummyStats
    state := .MOVING, targetId := none, targetPosition := none
    lastAttackTime := 500, isMoving := true, moveSpeed := 2 }

/-- A living enemy within attack range of `cooldownUnit`. -/
def cooldownTarget : GameEntity :=
  { id := "u2", ownerId := "player2", unitId := "knight_base"
    position := { x := 0, y := 1 }, radius := 1/2, stats := dummyStats
    state := .IDLE, targetId := none, targetPosition := none
    lastAttackTime := 0, isMoving := false, moveSpeed := 2 }

/-- A SPAWN_CARD message carrying none of its required fields. -/
def rawSpawnNoFields : RawC2S :=
  { type := some "SPAWN_CARD", cardIndex := none, x := none, y := none, deckId := none }

/-- The operation sequence of the mana-regeneration scenario: both players
join, the match starts at t = 0, and the timer fires on the 20 ticks of the
first second (every 50 ms). -/
def manaOps : List RoomOp :=
  [.addPlayer testP1 .p1, .addPlayer testP2 .p2, .start 0,
   .timer 50, .timer 100, .timer 150, .timer 200, .timer 250,
   .timer 300, .timer 350, .timer 400, .timer 450, .timer 500,
   .timer 550, .timer 600, .timer 650, .timer 700, .timer 750,
   .timer 800, .timer 850, .timer 900, .timer 950, .timer 1000]


/-! ## Helper lemmas -/

theorem updateTargetPosition_state (e t : GameEntity) :
    (e.updateTargetPosition t).state = e.state := by
  unfold GameEntity.updateTargetPosition
  split <;> rfl

theorem updateTargetPosition_isInRange (e t u : GameEntity) :
    (e.updateTargetPosition t).isInRange u = e.isInRange u := by
  unfold GameEntity.updateTargetPosition
  split <;> rfl

theorem updateTargetPosition_canAttack (e t : GameEntity) (time : ℚ) :
    (e.updateTargetPosition t).canAttack time = e.canAttack time := by
  unfold GameEntity.updateTargetPosition
  split <;> rfl

theorem updateMana_towers (c : RoomConfig) (gs : GameState) :
    (updateMana c gs).towers = gs.towers := rfl

theorem stopRoom_towers (r : RoomState) (s : String) :
    (stopRoom r s).gameState.towers = r.gameState.towers := by
  unfold stopRoom
  split <;> rfl

theorem endGame_towers (r : RoomState) (w s : String) :
    (endGame r w s).gameState.towers = r.gameState.towers := by
  unfold endGame
  simp [stopRoom_towers]

theorem checkWinCondition_towers (r : RoomState) (now : ℚ) :
    (checkWinCondition r now).gameState.towers = r.gameState.towers := by
  unfold checkWinCondition
  dsimp only
  split
  · exact endGame_towers r _ _
  · split
    · split
      · exact endGame_towers r _ _
      · split
        · split
          · exact endGame_towers r _ _
          · rfl
        · rfl
    · split
      · split
        · exact endGame_towers r _ _
        · rfl
      · rfl

theorem broadcastGameTick_towers (r : RoomState) :
    (broadcastGameTick r).gameState.towers = r.gameState.towers := rfl

theorem tickRoom_towers (r : RoomState) (now : ℚ) :
    (tickRoom r now).gameState.towers = r.gameState.towers := by
  unfold tickRoom
  simp [broadcastGameTick_towers, checkWinCondition_towers, updateMana_towers]

theorem startRoom_towers (r : RoomState) (now : ℚ) :
    (startRoom r now).gameState.towers = r.gameState.towers := by
  unfold startRoom
  split <;> rfl

theorem timerFire_towers (r : RoomState) (now : ℚ) :
    (timerFire r now).gameState.towers = r.gameState.towers := by
  unfold timerFire
  split <;> simp [tickRoom_towers]

theorem spawnUnit_towers (r : RoomState) (p : PlayerSlot) (u : String) (x y : ℚ)
    (items : List String) :
    (spawnUnit r p u x y items).2.gameState.towers = r.gameState.towers := by
  unfold spawnUnit
  cases getUnitById u <;> rfl

theorem handleSpawnRequest_towers (r : RoomState) (p : PlayerSlot) (ci : ℤ) (x y : ℚ) :
    (handleSpawnRequest r p ci x y).2.gameState.towers = r.gameState.towers := by
  unfold handleSpawnRequest
  dsimp only
  split
  · rfl
  · simp [spawnUnit_towers]

theorem addPlayer_towers (r : RoomState) (pc : PlayerConnection) (slot : PlayerSlot) :
    (addPlayer r pc slot).2.gameState.towers = r.gameState.towers := by
  unfold addPlayer
  split <;> rfl

theorem applyOp_towers (r : RoomState) (op : RoomOp) :
    (applyOp r op).gameState.towers = r.gameState.towers := by
  cases op <;>
    simp [applyOp, addPlayer_towers, startRoom_towers, timerFire_towers,
      spawnUnit_towers, handleSpawnRequest_towers, stopRoom_towers]

theorem broadcastGameTick_mana1 (r : RoomState) :
    (broadcastGameTick r).gameState.mana1 = r.gameState.mana1 := rfl

theorem broadcastGameTick_mana2 (r : RoomState) :
    (broadcastGameTick r).gameState.mana2 = r.gameState.mana2 := rfl

theorem stopRoom_mana (r : RoomState) (s : String) :
    (stopRoom r s).gameState.mana1 = r.gameState.mana1 ∧
    (stopRoom r s).gameState.mana2 = r.gameState.mana2 := by
  unfold stopRoom
  split <;> exact ⟨rfl, rfl⟩

theorem endGame_mana (r : RoomState) (w s : String) :
    (endGame r w s).gameState.mana1 = r.gameState.mana1 ∧
    (endGame r w s).gameState.mana2 = r.gameState.mana2 := by
  unfold endGame
  simp [stopRoom_mana]

theorem checkWinCondition_mana (r : RoomState) (now : ℚ) :
    (checkWinCondition r now).gameState.mana1 = r.gameState.mana1 ∧
    (checkWinCondition r now).gameState.mana2 = r.gameState.mana2 := by
  unfold checkWinCondition
  dsimp only
  split
  · exact endGame_mana r _ _
  · split
    · split
      · exact endGame_mana r _ _
      · split
        · split
          · exact endGame_mana r _ _
          · exact ⟨rfl, rfl⟩
        · exact ⟨rfl, rfl⟩
    · split
      · split
        · exact endGame_mana r _ _
        · exact ⟨rfl, rfl⟩
      · exact ⟨rfl, rfl⟩

/-! ## Claim theorems -/

/-- C3: in every room state reachable by any sequence of public operations
(addPlayer, start, timer-driven tick, spawnUnit, handleSpawnRequest, stop),
the tower list still equals `createInitialTowers` — every tower keeps its
initial health (2500 for side towers, 4000 for cores) — and the guard of
the core-destruction branch of `checkWinCondition` is false, so that
branch never fires. -/
theorem c3_towers_immortal (config : RoomConfig) (ops : List RoomOp) :
    (runOps config ops).gameState.towers = createInitialTowers ∧
    coreDestructionGuard (runOps config ops) = false := by
  have key : ∀ (l : List RoomOp) (s : RoomState),
      (l.foldl applyOp s).gameState.towers = s.gameState.towers := by
    intro l
    induction l with
    | nil => intro s; rfl
    | cons op rest ih =>
        intro s
        rw [List.foldl_cons, ih, applyOp_towers]
  have h1 : (runOps config ops).gameState.towers = createInitialTowers := by
    rw [runOps, key]
    rfl
  refine ⟨h1, ?_⟩
  unfold coreDestructionGuard
  rw [h1]
  simp [createInitialTowers, List.find?]
  try norm_num

/-- C7: the tick step changes each player's mana exactly as `updateMana`
does (one clamped increment of `manaRegenRate / tickRate` per tick); with
the default configuration (initial mana 5, regeneration 1 per second, 20
ticks per second), twenty tick-sized mana updates yield mana exactly 6 for
both players; and the clamped update can never push mana above 10. -/
theorem c7_mana_regen :
    (∀ (s : RoomState) (now : ℚ),
        (tickRoom s now).gameState.mana1 = (updateMana s.config s.gameState).mana1 ∧
        (tickRoom s now).gameState.mana2 = (updateMana s.config s.gameState).mana2) ∧
    ((updateMana defaultRoomConfig)^[20] (createInitialState defaultRoomConfig)).mana1 = 6 ∧
    ((updateMana defaultRoomConfig)^[20] (createInitialState defaultRoomConfig)).mana2 = 6 ∧
    (∀ (config : RoomConfig) (gs : GameState),
        (updateMana config gs).mana1 ≤ 10 ∧ (updateMana config gs).mana2 ≤ 10) := by
  refine ⟨?_, ?_, ?_, ?_⟩
  · intro s now
    unfold tickRoom
    dsimp only
    constructor
    · rw [broadcastGameTick_mana1]
      dsimp only
      rw [(checkWinCondition_mana _ now).1]
      rfl
    · rw [broadcastGameTick_mana2]
      dsimp only
      rw [(checkWinCondition_mana _ now).2]
      rfl
  · norm_num [updateMana, createInitialState, defaultRoomConfig, min_def,
      Function.iterate_succ_apply, Function.iterate_zero_apply]
  · norm_num [updateMana, createInitialState, defaultRoomConfig, min_def,
      Function.iterate_succ_apply, Function.iterate_zero_apply]
  · intro config gs
    constructor <;> exact min_le_left _ _

/-- C8: stopping a running room is idempotent — a second `stop` changes
nothing — and after `stop` returns, the interval is cleared, so a timer
firing leaves the stopped room's entire state (tick counter, mana,
entities, towers) unchanged. -/
theorem c8_stop_freezes (room : RoomState) (r1 r2 : String) (t : ℚ)
    (h : room.gameState.isRunning = true) :
    stopRoom (stopRoom room r1) r2 = stopRoom room r1 ∧
    timerFire (stopRoom room r1) t = stopRoom room r1 := by
  unfold stopRoom timerFire
  simp [h]

/-- Witness for C8 at a concrete running room. -/
theorem c8_stop_freezes_witness :
    readyRoom.gameState.isRunning = true ∧
    (stopRoom (stopRoom readyRoom "a") "b" = stopRoom readyRoom "a" ∧
      timerFire (stopRoom readyRoom "a") 50 = stopRoom readyRoom "a") :=
  ⟨rfl, c8_stop_freezes readyRoom "a" "b" 50 rfl⟩

/-- C1 (code evaluated at the failing input): player 1 requests a spawn at
y = 30, outside its deploy zone y ∈ [0,15].  `handleSpawnRequest` performs
none of the validations its TODO comments list: it reports success, a new
`knight_base` unit at (10, 30) joins the live collection, mana is untouched
only because no code path ever charges mana, and no `ERROR` message (in
particular no `INVALID_POSITION`) is emitted — contradicting the claimed
rejection. -/
theorem c1_spawn_outside_zone_not_rejected :
    inDeployZone .p1 30 = false ∧
    (handleSpawnRequest readyRoom .p1 0 10 30).1 = true ∧
    (handleSpawnRequest readyRoom .p1 0 10 30).2.entities.map
        (fun e => (e.unitId, e.position.x, e.position.y)) = [("knight_base", 10, 30)] ∧
    (handleSpawnRequest readyRoom .p1 0 10 30).2.gameState.mana1 = readyRoom.gameState.mana1 ∧
    (handleSpawnRequest readyRoom .p1 0 10 30).2.gameState.mana2 = readyRoom.gameState.mana2 ∧
    (handleSpawnRequest readyRoom .p1 0 10 30).2.outbox.filter (·.isError) = [] := by
  refine ⟨by norm_num [inDeployZone], ?_, ?_, ?_, ?_, ?_⟩ <;>
    (simp [handleSpawnRequest, spawnUnit, readyRoom, startRoom, addPlayer, createRoom,
        createInitialState, defaultRoomConfig, testP1, testP2, getUnitById, unitsCatalog,
        createEntity, calculateFinalStats, List.find?, S2CMsg.isError, apply_ite]
     try norm_num [apply_ite, max_def, min_def]
     try simp
     try decide)

/-- C2 (code evaluated at the failing input): player 1 performs a fully
valid spawn (card 0 → `knight_base`, mana cost 3, position (10,5) inside
its zone, mana 5 available).  The spawn succeeds and the created unit's
stats respect the documented floors, but the player's mana is still 5
afterwards: `handleSpawnRequest`/`spawnUnit` never deduct the cost, so
post-spawn mana ≠ pre-spawn mana − 3 as the claim requires. -/
theorem c2_valid_spawn_mana_not_deducted :
    inDeployZone .p1 5 = true ∧
    (getUnitById "knight_base").map (·.manaCost) = some 3 ∧
    readyRoom.gameState.mana1 = 5 ∧
    (handleSpawnRequest readyRoom .p1 0 10 5).1 = true ∧
    (handleSpawnRequest readyRoom .p1 0 10 5).2.entities.map (·.stats) =
      [{ hp := 200, maxHp := 200, damage := 25, attackSpeed := 1
         range := 3/2, moveSpeed := 2 }] ∧
    (handleSpawnRequest readyRoom .p1 0 10 5).2.gameState.mana1 = 5 ∧
    (handleSpawnRequest readyRoom .p1 0 10 5).2.gameState.mana1 ≠
      readyRoom.gameState.mana1 - 3 := by
  refine ⟨by norm_num [inDeployZone], by simp [getUnitById, unitsCatalog, List.find?],
    rfl, ?_, ?_, ?_, ?_⟩ <;>
    (simp [handleSpawnRequest, spawnUnit, readyRoom, startRoom, addPlayer, createRoom,
        createInitialState, defaultRoomConfig, testP1, testP2, getUnitById, unitsCatalog,
        createEntity, calculateFinalStats, List.find?, apply_ite]
     try norm_num [apply_ite, max_def, min_def]
     try simp
     try decide)

/-- C4 (code evaluated at the failing input): a player-1 archer at (10,15)
and a player-2 knight at (10,25) sit exactly 10.0 apart — the aggro
scenario of the spec and of the repository's own test script.  Because
`EntityStats` carries no `aggroRange` field (the combat system reads
`undefined`, and a JavaScript comparison against `undefined` is false) and
towers are never part of the entity collection, one combat update leaves
both units with no target at all, in state IDLE: the claimed target switch
to the enemy at distance exactly 10.0 never happens. -/
theorem c4_aggro_never_fires :
    aggroRoom.entities = [archerE, knightE] ∧
    getDistance archerE.position knightE.position = 10 ∧
    archerE.stats.aggroRange = none ∧
    (combatUpdate [archerE, knightE] 50).map (fun e => (e.id, e.targetId, e.state)) =
      [("archer_base_1", (none : Option String), EntityState.IDLE),
       ("knight_base_2", (none : Option String), EntityState.IDLE)] := by
  refine ⟨?_, ?_, rfl, ?_⟩
  · simp [aggroRoom, readyRoom, startRoom, addPlayer, createRoom, createInitialState,
      defaultRoomConfig, testP1, testP2, spawnUnit, getUnitById, unitsCatalog, createEntity,
      calculateFinalStats, List.find?, archerE, knightE, apply_ite]
    try norm_num [apply_ite, max_def, min_def]
    try simp
    try decide
  · norm_num [getDistance, ratSqrt, archerE, knightE]
  · simp [combatUpdate, combatStep, archerE, knightE, GameEntity.isAlive, GameEntity.isTower,
      EntityStats.aggroRange, findNearestWithinRange, findNearestEnemy, GameEntity.updateState,
      setById, (show List.range 2 = [0, 1] from rfl), List.foldl_cons, List.foldl_nil, apply_ite]
    try norm_num [apply_ite, max_def, min_def]
    try simp

/-- C5 counterexample: two radius-0.5 bodies whose centers are 0.6 apart,
resolved with the tick delta the room always passes (Δt = 50 ms = 1/20 s).
One full collision-resolution pass moves each center only 0.02 towards
opposite sides: the centers end 0.64 apart, not at least 1.0 apart as the
claim states. -/
theorem c5_single_pass_separation_counterexample :
    bodyA.radius = 1/2 ∧ bodyB.radius = 1/2 ∧
    getDistance bodyA.position bodyB.position = 3/5 ∧
    (resolveCollisions defaultPhysicsConfig [bodyA, bodyB] (1/20)).map (·.position) =
      [{ x := 499/50, y := 10 }, { x := 531/50, y := 10 }] ∧
    getDistance { x := (499:ℚ)/50, y := 10 } { x := 531/50, y := 10 } = 16/25 ∧
    ¬ ((1:ℚ) ≤ 16/25) := by
  refine ⟨rfl, rfl, by norm_num [getDistance, ratSqrt, bodyA, bodyB, createEntity], ?_,
    by norm_num [getDistance, ratSqrt], by norm_num⟩
  simp [resolveCollisions, resolvePairStep, (show pairIndices 2 = [(0, 1)] from rfl),
    defaultPhysicsConfig, bodyA, bodyB, dummyStats, createEntity, ratSqrt, apply_ite]
  try norm_num [apply_ite, ratSqrt]
  try simp
  try norm_num

/-- C5 amended: a single collision-resolution pass over an overlapping
(but not nearly coincident) pair displaces the two bodies by exactly
opposite vectors along the line joining the centers — the separation is
symmetric — but the push is `overlap · separationForce · Δt / 2` per body,
a soft force, not a full projection to contact distance (the counterexample
shows 0.6 apart becomes 0.64, not ≥ 1.0, at the 50 ms tick). -/
theorem c5_separation_amended (a b : GameEntity) (dt : ℚ)
    (h1 : getDistanceSquared a.position b.position <
      (a.radius + b.radius) * (a.radius + b.radius))
    (h2 : getDistanceSquared a.position b.position > 1/10000) :
    ∃ a' b', resolveCollisions defaultPhysicsConfig [a, b] dt = [a', b'] ∧
      a'.position.x - a.position.x = -(b'.position.x - b.position.x) ∧
      a'.position.y - a.position.y = -(b'.position.y - b.position.y) ∧
      (a'.position.x - a.position.x) * (b.position.y - a.position.y) =
        (a'.position.y - a.position.y) * (b.position.x - a.position.x) := by
  have hstep : resolveCollisions defaultPhysicsConfig [a, b] dt =
      (let dx := b.position.x - a.position.x
       let dy := b.position.y - a.position.y
       let dist := ratSqrt (dx * dx + dy * dy)
       let halfPush := ((a.radius + b.radius) - dist) * 2 * dt * (1/2)
       [{ a with position := { x := a.position.x - dx / dist * halfPush
                               y := a.position.y - dy / dist * halfPush } },
        { b with position := { x := b.position.x + dx / dist * halfPush
                               y := b.position.y + dy / dist * halfPush } }]) := by
    unfold resolveCollisions
    rw [show ([a, b] : List GameEntity).length = 2 from rfl,
        show pairIndices 2 = [(0, 1)] from rfl, List.foldl_cons, List.foldl_nil]
    unfold resolvePairStep
    rw [show ([a, b] : List GameEntity).get? 0 = some a from rfl,
        show ([a, b] : List GameEntity).get? 1 = some b from rfl]
    dsimp only
    split
    · rfl
    · next hfalse => exact absurd ⟨h1, h2⟩ hfalse
  exact ⟨_, _, hstep, by dsimp only; ring, by dsimp only; ring, by dsimp only; ring⟩

/-- Witness for the amended C5 at the concrete 0.6-apart pair. -/
theorem c5_separation_amended_witness :
    (getDistanceSquared bodyA.position bodyB.position <
        (bodyA.radius + bodyB.radius) * (bodyA.radius + bodyB.radius) ∧
      getDistanceSquared bodyA.position bodyB.position > 1/10000) ∧
    (∃ a' b', resolveCollisions defaultPhysicsConfig [bodyA, bodyB] (1/20) = [a', b'] ∧
      a'.position.x - bodyA.position.x = -(b'.position.x - bodyB.position.x) ∧
      a'.position.y - bodyA.position.y = -(b'.position.y - bodyB.position.y) ∧
      (a'.position.x - bodyA.position.x) * (bodyB.position.y - bodyA.position.y) =
        (a'.position.y - bodyA.position.y) * (bodyB.position.x - bodyA.position.x)) :=
  ⟨⟨by norm_num [getDistanceSquared, bodyA, bodyB, createEntity],
    by norm_num [getDistanceSquared, bodyA, bodyB, createEntity]⟩,
   c5_separation_amended bodyA bodyB (1/20)
     (by norm_num [getDistanceSquared, bodyA, bodyB, createEntity])
     (by norm_num [getDistanceSquared, bodyA, bodyB, createEntity])⟩

/-- C6 counterexample: a living unit in state MOVING whose target is in
range while its attack cooldown has NOT elapsed (100 ms of a 1000 ms
cooldown have passed) still transitions to ATTACKING on a single
`updateState` call — the FSM's IDLE/MOVING arm checks only range, not the
cooldown, contradicting the claim's "in range AND cooldown elapsed". -/
theorem c6_cooldown_gate_counterexample :
    cooldownUnit.state = .MOVING ∧
    cooldownUnit.isInRange cooldownTarget = true ∧
    cooldownUnit.canAttack 600 = false ∧
    (cooldownUnit.updateState (some cooldownTarget) 600).state = .ATTACKING := by
  refine ⟨rfl, ?_, ?_, ?_⟩
  · norm_num [GameEntity.isInRange, getDistance, ratSqrt, cooldownUnit, cooldownTarget,
      dummyStats]
  · norm_num [GameEntity.canAttack, GameEntity.isAlive, cooldownUnit, dummyStats]
  · simp [GameEntity.updateState, cooldownUnit, cooldownTarget, dummyStats,
      GameEntity.isAlive, GameEntity.canAttack, GameEntity.isInRange,
      GameEntity.updateTargetPosition, getDistance, ratSqrt, apply_ite]
    try norm_num [apply_ite]
    try simp

/-- C6 amended: from IDLE or MOVING with a living target, a single
`updateState` call transitions to ATTACKING exactly when the target is in
range, regardless of the attack cooldown; the cooldown gate is applied
only afterwards (the ATTACKING state falls back to COOLDOWN on the next
update, and damage is dealt only when `canAttack` holds). -/
theorem c6_fsm_amended (e target : GameEntity) (t : ℚ)
    (he : e.isAlive = true) (ht : target.isAlive = true)
    (hs : e.state = .IDLE ∨ e.state = .MOVING) :
    (e.updateState (some target) t).state =
      (if e.isInRange target then EntityState.ATTACKING else EntityState.MOVING) := by
  unfold GameEntity.updateState
  rw [if_neg (by simp [he])]
  dsimp only
  rw [if_neg (by simp [ht])]
  rw [updateTargetPosition_state]
  rcases hs with h | h <;>
    rw [h] <;>
    dsimp only <;>
    rw [updateTargetPosition_isInRange] <;>
    cases hr : e.isInRange target <;>
    simp [hr]

/-- Witness for the amended C6 at the concrete cooldown scenario. -/
theorem c6_fsm_amended_witness :
    (cooldownUnit.isAlive = true ∧ cooldownTarget.isAlive = true ∧
      (cooldownUnit.state = .IDLE ∨ cooldownUnit.state = .MOVING)) ∧
    (cooldownUnit.updateState (some cooldownTarget) 600).state =
      (if cooldownUnit.isInRange cooldownTarget then EntityState.ATTACKING
       else EntityState.MOVING) :=
  ⟨⟨by norm_num [GameEntity.isAlive, cooldownUnit, dummyStats] ; decide,
    by norm_num [GameEntity.isAlive, cooldownTarget, dummyStats] ; decide, Or.inr rfl⟩,
   c6_fsm_amended cooldownUnit cooldownTarget 600
     (by norm_num [GameEntity.isAlive, cooldownUnit, dummyStats] ; decide)
     (by norm_num [GameEntity.isAlive, cooldownTarget, dummyStats] ; decide)
     (Or.inr rfl)⟩

/-- C9 counterexample: a `SPAWN_CARD` message carrying none of its
required fields (`cardIndex`, `x`, `y`) passes `parseC2SMessage` untouched
and is routed into the room, with no `ERROR` reply — the codec checks only
the message kind, contradicting the claimed required-field validation. -/
theorem c9_missing_fields_routed_counterexample :
    rawSpawnNoFields.cardIndex = none ∧ rawSpawnNoFields.x = none ∧
    rawSpawnNoFields.y = none ∧
    parseC2SMessage rawSpawnNoFields = .ok rawSpawnNoFields ∧
    handleMessage rawSpawnNoFields = .routedSpawnCard none none none := by
  refine ⟨rfl, rfl, rfl, rfl, rfl⟩

/-- C9 amended: for every inbound message, `handleMessage` either routes
the message or answers with a structured ERROR reply — never a silent
drop — and the decision depends only on the `type` field: a missing or
unknown kind yields a `PARSE_ERROR` reply, while any message with a known
kind is routed to its handler (for `SPAWN_CARD`, into
`GameRoom.handleSpawnRequest`) regardless of whether its required fields
are present. -/
theorem c9_codec_amended (raw : RawC2S) :
    handleMessage raw =
      match raw.type with
      | none => .errorReply "PARSE_ERROR"
      | some t =>
          if t = "QUEUE_JOIN" then .routedQueueJoin raw.deckId
          else if t = "QUEUE_LEAVE" then .routedQueueLeave
          else if t = "SPAWN_CARD" then .routedSpawnCard raw.cardIndex raw.x raw.y
          else .errorReply "PARSE_ERROR" := by
  rcases raw with ⟨ty, ci, x, y, dk⟩
  cases ty with
  | none => rfl
  | some t =>
      by_cases h1 : t = "QUEUE_JOIN"
      · subst h1; rfl
      · by_cases h2 : t = "QUEUE_LEAVE"
        · subst h2; rfl
        · by_cases h3 : t = "SPAWN_CARD"
          · subst h3; rfl
          · simp [handleMessage, parseC2SMessage, c2sTypeValues, h1, h2, h3]

/-- C10: a pair of bodies whose centers coincide or nearly coincide
(squared distance at most 0.0001) is left entirely unchanged by any number
of collision-resolution passes: the `distSq > 0.0001` guard skips the
push, so exactly stacked circles are never separated. -/
theorem c10_coincident_pair_unmoved (a b : GameEntity) (dt : ℚ) (n : Nat)
    (h : getDistanceSquared a.position b.position ≤ 1/10000) :
    (fun l => resolveCollisions defaultPhysicsConfig l dt)^[n] [a, b] = [a, b] := by
  have hpass : resolveCollisions defaultPhysicsConfig [a, b] dt = [a, b] := by
    unfold resolveCollisions
    rw [show ([a, b] : List GameEntity).length = 2 from rfl,
        show pairIndices 2 = [(0, 1)] from rfl, List.foldl_cons, List.foldl_nil]
    unfold resolvePairStep
    rw [show ([a, b] : List GameEntity).get? 0 = some a from rfl,
        show ([a, b] : List GameEntity).get? 1 = some b from rfl]
    dsimp only
    rw [if_neg]
    intro hc
    exact absurd hc.2 (not_lt.mpr h)
  induction n with
  | zero => rfl
  | succ k ih => rw [Function.iterate_succ_apply, hpass, ih]

/-- Witness for C10 at an exactly coincident pair, three passes. -/
theorem c10_coincident_pair_unmoved_witness :
    getDistanceSquared bodyA.position bodyC.position ≤ 1/10000 ∧
    (fun l => resolveCollisions defaultPhysicsConfig l (1/20))^[3] [bodyA, bodyC] =
      [bodyA, bodyC] :=
  ⟨by norm_num [getDistanceSquared, bodyA, bodyC, createEntity],
   c10_coincident_pair_unmoved bodyA bodyC (1/20) 3
     (by norm_num [getDistanceSquared, bodyA, bodyC, createEntity])⟩

end Crom
